import Mathlib

/-!  Verification of the GPIO monitor agent (`src/client.py`).

We give a shallow embedding of the debounce / transition tracker
(`GPIOMonitor.pin_change_callback`, `GPIOMonitor.setup_gpio`), the reporter
(`GPIOMonitor.send_data_to_server`) and the startup connectivity probe
(`GPIOMonitor.run` / `GPIOMonitor.test_server_connection`), and prove the
specified properties about them.

Time is modelled as `ℚ` (seconds, as returned by `time.time()`); the
debounce window `debounce_time` is in milliseconds, exactly as in the code,
which converts with `* 1000` at each comparison.  The three per-pin Python
dicts `pin_states`, `pin_timestamps` and `last_interrupt_time` are modelled
as maps `String → Option _`; a missing key is `none`.  A Python `KeyError`
(raised by the unguarded lookup `self.pin_timestamps[channel]`) is modelled
by the callback returning `none` overall.
-/

/-- Per-monitor mutable tracker state: the three dicts of `GPIOMonitor`
(`pin_states`, `pin_timestamps`, `last_interrupt_time`), keyed by channel. -/
structure MonitorState where
  pin_states : String → Option Bool
  pin_timestamps : String → Option ℚ
  last_interrupt_time : String → Option ℚ

/-- The monitor state before any pin has been set up: all three dicts empty. -/
def emptyState : MonitorState :=
  { pin_states := fun _ => none
    pin_timestamps := fun _ => none
    last_interrupt_time := fun _ => none }

/-- Dict update `d[k] = v` on a `String → Option α` map. -/
def updateFn {α : Type} (f : String → Option α) (k : String) (v : α) :
    String → Option α :=
  fun q => if q = k then some v else f q

/-- The data handed by the tracker to the reporter thread on an accepted
transition: the arguments `(channel, new_state, time_diff_ms)` of the
`threading.Thread` spawned in `pin_change_callback`. -/
structure TransitionEvent where
  pin : String
  new_level : Bool
  time_diff_ms : ℚ
deriving DecidableEq

/-- Per-pin initialization done in the loop body of `GPIOMonitor.setup_gpio`:
capture the initial level, stamp `pin_timestamps[pin] = time.time()` (here
`t0`) and `last_interrupt_time[pin] = 0`. -/
def setup_pin (st : MonitorState) (pin : String) (initial_state : Bool)
    (t0 : ℚ) : MonitorState :=
  { pin_states := updateFn st.pin_states pin initial_state
    pin_timestamps := updateFn st.pin_timestamps pin t0
    last_interrupt_time := updateFn st.last_interrupt_time pin 0 }

/-- Model of `GPIOMonitor.pin_change_callback`.  `current_time` is the value
of `time.time()` at entry and `new_state` the level read by
`GPIO.input(channel)`.  Returns the updated state together with the event
handed to the sender thread, if any; the outer `none` models the `KeyError`
raised by `self.pin_timestamps[channel]` when the key is absent. -/
def pin_change_callback (debounce_time : ℚ) (st : MonitorState)
    (channel : String) (current_time : ℚ) (new_state : Bool) :
    Option (MonitorState × Option TransitionEvent) :=
  let time_since_last :=
    (current_time - (st.last_interrupt_time channel).getD 0) * 1000
  if time_since_last < debounce_time then
    some (st, none)
  else
    let st1 := { st with
      last_interrupt_time := updateFn st.last_interrupt_time channel current_time }
    let old_state := (st1.pin_states channel).getD new_state
    if new_state = old_state then
      some (st1, none)
    else
      match st1.pin_timestamps channel with
      | none => none
      | some ts =>
        let time_diff_ms := (current_time - ts) * 1000
        some ({ st1 with
                  pin_states := updateFn st1.pin_states channel new_state
                  pin_timestamps := updateFn st1.pin_timestamps channel current_time },
              some ⟨channel, new_state, time_diff_ms⟩)

/-- Process a sequence of raw change callbacks `(time, level read)` on one
channel, collecting the accepted transition events in order; propagates a
`KeyError` (`none`) from any step. -/
def processSeq (debounce_time : ℚ) (st : MonitorState) (channel : String) :
    List (ℚ × Bool) → Option (MonitorState × List TransitionEvent)
  | [] => some (st, [])
  | (t, lvl) :: rest =>
    match pin_change_callback debounce_time st channel t lvl with
    | none => none
    | some (st2, ev) =>
      match processSeq debounce_time st2 channel rest with
      | none => none
      | some (st3, evs) => some (st3, ev.toList ++ evs)

/-- A broken-down local time, as consumed by `time.strftime`. -/
structure LocalTime where
  year : ℕ
  month : ℕ
  day : ℕ
  hour : ℕ
  minute : ℕ
  second : ℕ
deriving DecidableEq

/-- Zero-padded two-digit decimal field of `strftime` (`%m`, `%d`, `%H`,
`%M`, `%S`). -/
def pad2 (n : ℕ) : String :=
  String.mk [Nat.digitChar (n / 10 % 10), Nat.digitChar (n % 10)]

/-- Zero-padded four-digit decimal year field of `strftime` (`%Y`). -/
def pad4 (n : ℕ) : String :=
  String.mk [Nat.digitChar (n / 1000 % 10), Nat.digitChar (n / 100 % 10),
             Nat.digitChar (n / 10 % 10), Nat.digitChar (n % 10)]

/-- Model of `time.strftime` applied to the format string used in
`send_data_to_server`, on the broken-down local time `t`. -/
def strftime_fmt (t : LocalTime) : String :=
  pad4 t.year ++ "-" ++ pad2 t.month ++ "-" ++ pad2 t.day ++ " " ++
    pad2 t.hour ++ ":" ++ pad2 t.minute ++ ":" ++ pad2 t.second

/-- Checks that a string has the shape `YYYY-MM-DD HH:MM:SS`: nineteen
characters, digits everywhere except the separators at positions 4, 7
(hyphen), 10 (space), 13 and 16 (colon). -/
def timestampShape (s : String) : Bool :=
  match s.data with
  | [a, b, c, d, e, f, g, h, i, j, k, l, m, n, o, p, q, r, u] =>
    a.isDigit && b.isDigit && c.isDigit && d.isDigit && (e == '-') &&
    f.isDigit && g.isDigit && (h == '-') && i.isDigit && j.isDigit &&
    (k == ' ') && l.isDigit && m.isDigit && (n == ':') && o.isDigit &&
    p.isDigit && (q == ':') && r.isDigit && u.isDigit
  | _ => false

/-- A JSON scalar appearing as a value in the reporter's payload. -/
inductive JsonValue where
  | jstr (s : String)
  | jnum (q : ℚ)
deriving DecidableEq

/-- Model of Python `round(x, 2)`: round to two decimal places.  (Python
rounds half to even; the tie case at a half-hundredth is immaterial to the
claims, which only fix the number of decimal places.) -/
def round2 (q : ℚ) : ℚ := (round (q * 100) : ℤ) / 100

/-- The `data` dict built at the top of `send_data_to_server`, as an ordered
key/value list. -/
def send_payload (device_name pin : String) (state : Bool)
    (time_diff_ms : ℚ) (t : LocalTime) : List (String × JsonValue) :=
  [("device_name", .jstr device_name),
   ("pin", .jstr pin),
   ("state", .jstr (if state then "HIGH" else "LOW")),
   ("time_diff_ms", .jnum (round2 time_diff_ms)),
   ("timestamp", .jstr (strftime_fmt t))]

/-- The four exception classes distinguished by the `except` clauses of
`send_data_to_server` and `test_server_connection`: `ConnectionRefusedError`,
`socket.timeout`, `socket.gaierror`, and any other `Exception`. -/
inductive NetError where
  | connectionRefused
  | timeout
  | gaierror
  | otherError
deriving DecidableEq

/-- An observable socket operation performed during one delivery or probe. -/
inductive SockAction where
  | connect
  | send (data : List (String × JsonValue))
  | recv
  | close
deriving DecidableEq

/-- Whether the action is a connection attempt. -/
def SockAction.isConnect : SockAction → Bool
  | .connect => true
  | _ => false

/-- Whether the action writes a payload. -/
def SockAction.isSend : SockAction → Bool
  | .send _ => true
  | _ => false

/-- Whether the action closes the socket. -/
def SockAction.isClose : SockAction → Bool
  | .close => true
  | _ => false

/-- Behaviour of the network during one delivery: at which socket operation,
if any, an exception is raised, and otherwise the collector's response
(`s.recv(1024).decode` result). -/
inductive TransportBehavior where
  | failConnect (e : NetError)
  | failSend (e : NetError)
  | failRecv (e : NetError)
  | respond (resp : String)
deriving DecidableEq

/-- The outcome logged by `send_data_to_server`. -/
inductive SendOutcome where
  | success
  | unexpectedResponse (resp : String)
  | failed (e : NetError)
deriving DecidableEq

/-- The `try` block of `send_data_to_server`: connect, send the payload,
read the response, branch on `response == 'OK'`, close.  Returns the socket
actions performed together with either the raised exception or the logged
outcome.  Note `s.close()` is executed only when no exception was raised. -/
def try_send (data : List (String × JsonValue)) :
    TransportBehavior → List SockAction × Except NetError SendOutcome
  | .failConnect e => ([.connect], .error e)
  | .failSend e => ([.connect, .send data], .error e)
  | .failRecv e => ([.connect, .send data, .recv], .error e)
  | .respond r =>
    ([.connect, .send data, .recv, .close],
     .ok (if r = "OK" then .success else .unexpectedResponse r))

/-- Model of `GPIOMonitor.send_data_to_server`: build the payload from the
event, run the `try` block, and catch each of the four exception classes in
its own `except` clause (logging only — the exception never propagates). -/
def send_data_to_server (device_name pin : String) (state : Bool)
    (time_diff_ms : ℚ) (t : LocalTime) (tb : TransportBehavior) :
    List SockAction × SendOutcome :=
  let data := send_payload device_name pin state time_diff_ms t
  match try_send data tb with
  | (tr, .ok o) => (tr, o)
  | (tr, .error .connectionRefused) => (tr, .failed .connectionRefused)
  | (tr, .error .timeout) => (tr, .failed .timeout)
  | (tr, .error .gaierror) => (tr, .failed .gaierror)
  | (tr, .error .otherError) => (tr, .failed .otherError)

/-- Model of `GPIOMonitor.test_server_connection`: connect then immediately
close, writing nothing; every exception class is caught and only logged. -/
def test_server_connection : Except NetError Unit → List SockAction
  | .ok _ => [.connect, .close]
  | .error _ => [.connect]

/-- What `GPIOMonitor.run` does before and at the monitoring loop:
the actions of the single `test_server_connection()` call, and whether the
`while self.running` loop is then entered. -/
structure RunTrace where
  probe_actions : List SockAction
  entered_loop : Bool
deriving DecidableEq

/-- Model of `GPIOMonitor.run` up to entry of the monitoring loop: the probe
runs exactly once, and the loop is entered unconditionally afterwards. -/
def run (probe : Except NetError Unit) : RunTrace :=
  { probe_actions := test_server_connection probe
    entered_loop := true }

/-- Concrete tracker state used to witness the per-claim theorems: pin `P1`
currently `HIGH`, last accepted change (and last interrupt) at `t = 1000` s. -/
def exState : MonitorState :=
  { pin_states := fun q => if q = "P1" then some true else none
    pin_timestamps := fun q => if q = "P1" then some 1000 else none
    last_interrupt_time := fun q => if q = "P1" then some 1000 else none }

theorem updateFn_self {α : Type} (f : String → Option α) (k : String) (v : α) :
    updateFn f k v k = some v := by
  simp [updateFn]

/-- Branch lemma: a callback arriving strictly within the debounce window is
dropped with no state change at all. -/
theorem pin_change_callback_debounced (debounce_time : ℚ) (st : MonitorState)
    (channel : String) (current_time : ℚ) (new_state : Bool)
    (h : (current_time - (st.last_interrupt_time channel).getD 0) * 1000 <
      debounce_time) :
    pin_change_callback debounce_time st channel current_time new_state =
      some (st, none) := by
  simp only [pin_change_callback]
  rw [if_pos h]

/-- Branch lemma: a callback past the debounce window that reads an
unchanged level produces no event and touches only `last_interrupt_time`. -/
theorem pin_change_callback_spurious (debounce_time : ℚ) (st : MonitorState)
    (channel : String) (current_time : ℚ) (new_state : Bool)
    (h : ¬ (current_time - (st.last_interrupt_time channel).getD 0) * 1000 <
      debounce_time)
    (heq : (st.pin_states channel).getD new_state = new_state) :
    pin_change_callback debounce_time st channel current_time new_state =
      some ({ st with last_interrupt_time :=
                updateFn st.last_interrupt_time channel current_time }, none) := by
  simp only [pin_change_callback]
  rw [if_neg h, if_pos heq.symm]

/-- Branch lemma: a callback past the debounce window reading a genuinely
different level emits the event and performs all three state updates. -/
theorem pin_change_callback_accepted (debounce_time : ℚ) (st : MonitorState)
    (channel : String) (current_time ts : ℚ) (new_state : Bool)
    (h : ¬ (current_time - (st.last_interrupt_time channel).getD 0) * 1000 <
      debounce_time)
    (hne : (st.pin_states channel).getD new_state ≠ new_state)
    (hts : st.pin_timestamps channel = some ts) :
    pin_change_callback debounce_time st channel current_time new_state =
      some ({ pin_states := updateFn st.pin_states channel new_state
              pin_timestamps := updateFn st.pin_timestamps channel current_time
              last_interrupt_time :=
                updateFn st.last_interrupt_time channel current_time },
            some ⟨channel, new_state, (current_time - ts) * 1000⟩) := by
  simp only [pin_change_callback]
  rw [if_neg h, if_neg (fun hx => hne hx.symm)]
  simp only [hts]

/-- Sequence lemma: if every arrival of a sequence falls strictly within the
debounce window of a time `t_a` no later than the recorded last interrupt,
nothing is accepted and the state never changes. -/
theorem processSeq_all_debounced (debounce_time t_a tli : ℚ) (st : MonitorState)
    (channel : String) (arrivals : List (ℚ × Bool))
    (hli : st.last_interrupt_time channel = some tli) (hta : t_a ≤ tli)
    (hall : ∀ p ∈ arrivals, (p.1 - t_a) * 1000 < debounce_time) :
    processSeq debounce_time st channel arrivals = some (st, []) := by
  induction arrivals with
  | nil => rfl
  | cons p rest ih =>
    obtain ⟨t, lvl⟩ := p
    have hwin : (t - (st.last_interrupt_time channel).getD 0) * 1000 <
        debounce_time := by
      have h1 := hall (t, lvl) (List.mem_cons_self _ _)
      rw [hli]
      simp only [Option.getD_some]
      nlinarith
    have hstep := pin_change_callback_debounced debounce_time st channel t lvl hwin
    have hrest := ih (fun q hq => hall q (List.mem_cons_of_mem _ hq))
    simp [processSeq, hstep, hrest]

/-- Sequence lemma: starting from any state in which the channel has a
recorded level and timestamp, processing never raises, and the final recorded
level is the level of the last accepted transition (or the starting level if
none was accepted). -/
theorem processSeq_level_tracks_accepted (debounce_time : ℚ) (channel : String) :
    ∀ (arrivals : List (ℚ × Bool)) (st : MonitorState) (l : Bool) (ts : ℚ),
      st.pin_states channel = some l → st.pin_timestamps channel = some ts →
      ∃ st2 evs,
        processSeq debounce_time st channel arrivals = some (st2, evs) ∧
        st2.pin_states channel =
          some ((evs.map TransitionEvent.new_level).getLastD l) ∧
        ∃ ts2, st2.pin_timestamps channel = some ts2 := by
  intro arrivals
  induction arrivals with
  | nil =>
    intro st l ts hst hts
    exact ⟨st, [], rfl, by simpa using hst, ts, hts⟩
  | cons p rest ih =>
    intro st l ts hst hts
    obtain ⟨t, lvl⟩ := p
    by_cases hd : (t - (st.last_interrupt_time channel).getD 0) * 1000 <
        debounce_time
    · have hstep := pin_change_callback_debounced debounce_time st channel t lvl hd
      obtain ⟨st2, evs, hseq, hlvl, ts2, hts2⟩ := ih st l ts hst hts
      exact ⟨st2, evs, by simp [processSeq, hstep, hseq], hlvl, ts2, hts2⟩
    · by_cases heq : (st.pin_states channel).getD lvl = lvl
      · have hstep := pin_change_callback_spurious debounce_time st channel t lvl hd heq
        obtain ⟨st2, evs, hseq, hlvl, ts2, hts2⟩ :=
          ih { st with last_interrupt_time :=
                updateFn st.last_interrupt_time channel t } l ts hst hts
        exact ⟨st2, evs, by simp [processSeq, hstep, hseq], hlvl, ts2, hts2⟩
      · have hstep :=
          pin_change_callback_accepted debounce_time st channel t ts lvl hd heq hts
        have hst2 : (updateFn st.pin_states channel lvl) channel = some lvl :=
          updateFn_self _ _ _
        have hts2 : (updateFn st.pin_timestamps channel t) channel = some t :=
          updateFn_self _ _ _
        obtain ⟨st3, evs, hseq, hlvl, ts3, hts3⟩ :=
          ih { pin_states := updateFn st.pin_states channel lvl
               pin_timestamps := updateFn st.pin_timestamps channel t
               last_interrupt_time :=
                 updateFn st.last_interrupt_time channel t } lvl t hst2 hts2
        refine ⟨st3, ⟨channel, lvl, (t - ts) * 1000⟩ :: evs,
          by simp [processSeq, hstep, hseq], ?_, ts3, hts3⟩
        simp only [List.map_cons, List.getLastD_cons]
        exact hlvl

theorem digitChar_isDigit_of_lt (n : ℕ) (h : n < 10) :
    (Nat.digitChar n).isDigit = true := by
  interval_cases n <;> rfl

theorem digitChar_mod_ten_isDigit (n : ℕ) :
    (Nat.digitChar (n % 10)).isDigit = true :=
  digitChar_isDigit_of_lt _ (Nat.mod_lt _ (by norm_num))

/-- The formatted local timestamp always has the shape
`YYYY-MM-DD HH:MM:SS`. -/
theorem strftime_fmt_shape (t : LocalTime) :
    timestampShape (strftime_fmt t) = true := by
  obtain ⟨y, mo, d, h, mi, s⟩ := t
  have hdata : (strftime_fmt ⟨y, mo, d, h, mi, s⟩).data =
      [Nat.digitChar (y / 1000 % 10), Nat.digitChar (y / 100 % 10),
       Nat.digitChar (y / 10 % 10), Nat.digitChar (y % 10), '-',
       Nat.digitChar (mo / 10 % 10), Nat.digitChar (mo % 10), '-',
       Nat.digitChar (d / 10 % 10), Nat.digitChar (d % 10), ' ',
       Nat.digitChar (h / 10 % 10), Nat.digitChar (h % 10), ':',
       Nat.digitChar (mi / 10 % 10), Nat.digitChar (mi % 10), ':',
       Nat.digitChar (s / 10 % 10), Nat.digitChar (s % 10)] := by
    simp [strftime_fmt, pad2, pad4, String.data_append]
  simp [timestampShape, hdata, digitChar_mod_ten_isDigit]

/-- C1: a raw change arriving strictly within `debounce_time` ms of the
recorded last interrupt is discarded silently — no event, no state change;
and any sequence of raw changes all arriving strictly within the window of
the last accepted change (a time `t_a` no later than the recorded last
interrupt) produces no accepted transition at all, so at most the first
change of such a run can ever be accepted. -/
theorem debounce_window_suppression (debounce_time t_a tli current_time : ℚ)
    (st : MonitorState) (channel : String) (new_state : Bool)
    (arrivals : List (ℚ × Bool)) :
    ((current_time - (st.last_interrupt_time channel).getD 0) * 1000 <
        debounce_time →
      pin_change_callback debounce_time st channel current_time new_state =
        some (st, none))
    ∧ (st.last_interrupt_time channel = some tli → t_a ≤ tli →
      (∀ p ∈ arrivals, (p.1 - t_a) * 1000 < debounce_time) →
      processSeq debounce_time st channel arrivals = some (st, [])) := by
  constructor
  · intro h
    exact pin_change_callback_debounced debounce_time st channel current_time
      new_state h
  · intro hli hta hall
    exact processSeq_all_debounced debounce_time t_a tli st channel arrivals
      hli hta hall

theorem debounce_window_suppression_witness :
    pin_change_callback 100 exState "P1" (50001 / 50) true =
      some (exState, none)
    ∧ processSeq 100 exState "P1" [(50001 / 50, true), (20001 / 20, false)] =
      some (exState, []) := by
  have h := debounce_window_suppression 100 1000 1000 (50001 / 50) exState "P1"
    true [(50001 / 50, true), (20001 / 20, false)]
  refine ⟨h.1 (by norm_num [exState]), h.2 (by norm_num [exState]) le_rfl ?_⟩
  intro p hp
  fin_cases hp <;> norm_num

/-- C2: an accepted transition carries `time_diff_ms = (now - last_change_at)
* 1000`, which is nonnegative whenever `now` is not before the recorded
timestamp; the per-pin state is updated to the new level with both
timestamps set to `now`; every suppressed callback leaves `pin_timestamps`
(the dwell reference point) untouched, and pin setup initializes it to the
capture time — so dwell is always measured from the previous accepted
transition or from initial capture, never from a suppressed bounce. -/
theorem accepted_transition_dwell_and_updates
    (debounce_time current_time ts t0 : ℚ) (st : MonitorState)
    (channel : String) (new_state init_level : Bool) :
    (¬ (current_time - (st.last_interrupt_time channel).getD 0) * 1000 <
        debounce_time →
      (st.pin_states channel).getD new_state ≠ new_state →
      st.pin_timestamps channel = some ts →
      pin_change_callback debounce_time st channel current_time new_state =
        some ({ pin_states := updateFn st.pin_states channel new_state
                pin_timestamps := updateFn st.pin_timestamps channel current_time
                last_interrupt_time :=
                  updateFn st.last_interrupt_time channel current_time },
              some ⟨channel, new_state, (current_time - ts) * 1000⟩)
      ∧ (ts ≤ current_time → 0 ≤ (current_time - ts) * 1000))
    ∧ (∀ st2, pin_change_callback debounce_time st channel current_time
          new_state = some (st2, none) →
        st2.pin_timestamps channel = st.pin_timestamps channel)
    ∧ (setup_pin st channel init_level t0).pin_timestamps channel = some t0 := by
  refine ⟨fun h hne hts => ⟨?_, fun hle => ?_⟩, fun st2 h2 => ?_, ?_⟩
  · exact pin_change_callback_accepted debounce_time st channel current_time ts
      new_state h hne hts
  · nlinarith
  · by_cases hd : (current_time - (st.last_interrupt_time channel).getD 0) *
        1000 < debounce_time
    · rw [pin_change_callback_debounced debounce_time st channel current_time
        new_state hd] at h2
      cases h2
      rfl
    · by_cases heq : (st.pin_states channel).getD new_state = new_state
      · rw [pin_change_callback_spurious debounce_time st channel current_time
          new_state hd heq] at h2
        cases h2
        rfl
      · rcases hts : st.pin_timestamps channel with _ | ts0
        · simp only [pin_change_callback] at h2
          rw [if_neg hd, if_neg (fun hx => heq hx.symm)] at h2
          simp only [hts] at h2
          cases h2
        · rw [pin_change_callback_accepted debounce_time st channel
            current_time ts0 new_state hd heq hts] at h2
          cases h2
  · exact updateFn_self _ _ _

theorem accepted_transition_dwell_and_updates_witness :
    (pin_change_callback 100 (setup_pin emptyState "P1" false 1000) "P1" 1001
        true).map (fun r =>
          (r.2, r.1.pin_states "P1", r.1.pin_timestamps "P1",
            r.1.last_interrupt_time "P1")) =
      some (some ⟨"P1", true, 1000⟩, some true, some 1001, some 1001)
    ∧ (0 : ℚ) ≤ ((1001 : ℚ) - 1000) * 1000 := by
  have h := accepted_transition_dwell_and_updates 100 1001 1000 1000
    (setup_pin emptyState "P1" false 1000) "P1" true false
  have h1 := h.1 (by norm_num [setup_pin, emptyState, updateFn])
    (by norm_num [setup_pin, emptyState, updateFn])
    (by norm_num [setup_pin, emptyState, updateFn])
  refine ⟨?_, h1.2 (by norm_num)⟩
  rw [h1.1]
  norm_num [updateFn]

/-- C3 as stated is false: a same-level callback that passes the debounce
check does mutate per-pin tracker state.  Concretely, from pin `P1` set up
with level `LOW` at time `0`, a same-level (`LOW`) callback at time `1`
passes the debounce check (1000 ms ≥ 100 ms), produces no event — but
`last_interrupt_time["P1"]` moves from `0` to `1`. -/
theorem spurious_callback_counterexample :
    (setup_pin emptyState "P1" false 0).last_interrupt_time "P1" = some 0
    ∧ (pin_change_callback 100 (setup_pin emptyState "P1" false 0) "P1" 1
        false).map (fun r => (r.1.last_interrupt_time "P1", r.2)) =
      some (some 1, none) := by
  constructor
  · norm_num [setup_pin, emptyState, updateFn]
  · norm_num [pin_change_callback, setup_pin, emptyState, updateFn]

/-- C3 amended: a callback that passes the debounce check but reads a level
equal to the recorded one is discarded with no `TransitionEvent`; the pin's
`level` and `last_change_at` are left unchanged, but — unlike the claim —
`last_interrupt_time` (the `last_accepted_interrupt_at` of the spec) is
updated to `now`, because the code stamps it before the level comparison. -/
theorem spurious_callback_frame (debounce_time current_time : ℚ)
    (st : MonitorState) (channel : String) (new_state : Bool) :
    ¬ (current_time - (st.last_interrupt_time channel).getD 0) * 1000 <
      debounce_time →
    (st.pin_states channel).getD new_state = new_state →
    pin_change_callback debounce_time st channel current_time new_state =
      some ({ st with last_interrupt_time :=
                updateFn st.last_interrupt_time channel current_time }, none) :=
  pin_change_callback_spurious debounce_time st channel current_time new_state

theorem spurious_callback_frame_witness :
    pin_change_callback 100 (setup_pin emptyState "P1" false 0) "P1" 1 false =
      some ({ pin_states := (setup_pin emptyState "P1" false 0).pin_states
              pin_timestamps := (setup_pin emptyState "P1" false 0).pin_timestamps
              last_interrupt_time :=
                updateFn (setup_pin emptyState "P1" false 0).last_interrupt_time
                  "P1" 1 }, none) := by
  exact spurious_callback_frame 100 1 (setup_pin emptyState "P1" false 0) "P1"
    false (by norm_num [setup_pin, emptyState, updateFn])
    (by norm_num [setup_pin, emptyState, updateFn])

/-- C4 as stated is false: on a transport error the code never reaches
`s.close()`, because the `try` block has no `finally`.  Concretely, when the
response read times out, the socket actions are connect, send, recv — a
connection was attempted and used, but no close is performed. -/
theorem close_on_error_counterexample :
    ((send_data_to_server "dev" "P1" true 0 ⟨2024, 1, 1, 0, 0, 0⟩
        (.failRecv .timeout)).1.countP SockAction.isClose = 0)
    ∧ ((send_data_to_server "dev" "P1" true 0 ⟨2024, 1, 1, 0, 0, 0⟩
        (.failRecv .timeout)).1.countP SockAction.isConnect = 1)
    ∧ ((send_data_to_server "dev" "P1" true 0 ⟨2024, 1, 1, 0, 0, 0⟩
        (.failRecv .timeout)).2 = .failed .timeout) := by
  refine ⟨rfl, rfl, rfl⟩

/-- C4 amended: a response equal to the exact literal `OK` is success; any
other response yields the unexpected-response outcome, not a failure; after
any response (`OK` or not) the connection is closed — but on a transport
error (failure at connect, send or recv) no close is performed, since the
`try` block has no `finally` clause. -/
theorem response_handling_and_close (device_name pin : String) (state : Bool)
    (time_diff_ms : ℚ) (t : LocalTime) (r : String) (e : NetError) :
    ((send_data_to_server device_name pin state time_diff_ms t
        (.respond "OK")).2 = .success)
    ∧ (r ≠ "OK" → (send_data_to_server device_name pin state time_diff_ms t
        (.respond r)).2 = .unexpectedResponse r)
    ∧ ((send_data_to_server device_name pin state time_diff_ms t
        (.respond r)).1.countP SockAction.isClose = 1)
    ∧ ((send_data_to_server device_name pin state time_diff_ms t
        (.failConnect e)).1.countP SockAction.isClose = 0)
    ∧ ((send_data_to_server device_name pin state time_diff_ms t
        (.failSend e)).1.countP SockAction.isClose = 0)
    ∧ ((send_data_to_server device_name pin state time_diff_ms t
        (.failRecv e)).1.countP SockAction.isClose = 0) := by
  refine ⟨?_, fun hr => ?_, ?_, ?_, ?_, ?_⟩
  · simp [send_data_to_server, try_send]
  · simp [send_data_to_server, try_send, hr]
  · simp [send_data_to_server, try_send, List.countP, List.countP.go,
      SockAction.isClose]
  all_goals cases e <;>
    simp [send_data_to_server, try_send, List.countP, List.countP.go,
      SockAction.isClose]

theorem response_handling_and_close_witness :
    ((send_data_to_server "dev" "P1" true 0 ⟨2024, 1, 1, 0, 0, 0⟩
        (.respond "ERR")).2 = .unexpectedResponse "ERR")
    ∧ ((send_data_to_server "dev" "P1" true 0 ⟨2024, 1, 1, 0, 0, 0⟩
        (.respond "ERR")).1.countP SockAction.isClose = 1) := by
  have h := response_handling_and_close "dev" "P1" true 0 ⟨2024, 1, 1, 0, 0, 0⟩
    "ERR" NetError.timeout
  exact ⟨h.2.1 (by decide), h.2.2.1⟩

/-- C5: the serialized payload is exactly the five keys `device_name`,
`pin`, `state`, `time_diff_ms`, `timestamp`, in that order; `state` is
`"HIGH"` for a true level and `"LOW"` for false; `time_diff_ms` is the dwell
time rounded to two decimal places; `device_name` and `pin` are the resolved
name and the configured identifier; and the timestamp string always has the
local-time shape `YYYY-MM-DD HH:MM:SS`. -/
theorem payload_keys_and_values (device_name pin : String) (state : Bool)
    (time_diff_ms : ℚ) (t : LocalTime) :
    ((send_payload device_name pin state time_diff_ms t).map Prod.fst =
      ["device_name", "pin", "state", "time_diff_ms", "timestamp"])
    ∧ (List.lookup "device_name" (send_payload device_name pin state
        time_diff_ms t) = some (.jstr device_name))
    ∧ (List.lookup "pin" (send_payload device_name pin state time_diff_ms t) =
        some (.jstr pin))
    ∧ (List.lookup "state" (send_payload device_name pin state time_diff_ms t) =
        some (.jstr (if state then "HIGH" else "LOW")))
    ∧ (List.lookup "time_diff_ms" (send_payload device_name pin state
        time_diff_ms t) = some (.jnum (round2 time_diff_ms)))
    ∧ (List.lookup "timestamp" (send_payload device_name pin state
        time_diff_ms t) = some (.jstr (strftime_fmt t)))
    ∧ timestampShape (strftime_fmt t) = true := by
  refine ⟨rfl, rfl, rfl, rfl, rfl, rfl, strftime_fmt_shape t⟩

/-- C6: a failure raised at any of the three socket operations is caught,
classified as exactly one of the four documented classes (the four `except`
clauses), and surfaces only as a logged `failed` outcome — nothing
propagates to the tracker; and for every transport behaviour the delivery
makes exactly one connection attempt and at most one payload write: the
event is dropped, never queued or retried. -/
theorem delivery_failure_classification (device_name pin : String)
    (state : Bool) (time_diff_ms : ℚ) (t : LocalTime) (e : NetError)
    (tb : TransportBehavior) :
    ((send_data_to_server device_name pin state time_diff_ms t
        (.failConnect e)).2 = .failed e)
    ∧ ((send_data_to_server device_name pin state time_diff_ms t
        (.failSend e)).2 = .failed e)
    ∧ ((send_data_to_server device_name pin state time_diff_ms t
        (.failRecv e)).2 = .failed e)
    ∧ (e = .connectionRefused ∨ e = .timeout ∨ e = .gaierror ∨
        e = .otherError)
    ∧ ((send_data_to_server device_name pin state time_diff_ms t
        tb).1.countP SockAction.isConnect = 1)
    ∧ ((send_data_to_server device_name pin state time_diff_ms t
        tb).1.countP SockAction.isSend ≤ 1) := by
  refine ⟨?_, ?_, ?_, ?_, ?_, ?_⟩
  · cases e <;> rfl
  · cases e <;> rfl
  · cases e <;> rfl
  · cases e
    · exact Or.inl rfl
    · exact Or.inr (Or.inl rfl)
    · exact Or.inr (Or.inr (Or.inl rfl))
    · exact Or.inr (Or.inr (Or.inr rfl))
  · cases tb with
    | failConnect x => cases x <;> rfl
    | failSend x => cases x <;> rfl
    | failRecv x => cases x <;> rfl
    | respond r => rfl
  · cases tb with
    | failConnect x => cases x <;> simp [send_data_to_server, try_send,
        List.countP, List.countP.go, SockAction.isSend]
    | failSend x => cases x <;> simp [send_data_to_server, try_send,
        List.countP, List.countP.go, SockAction.isSend]
    | failRecv x => cases x <;> simp [send_data_to_server, try_send,
        List.countP, List.countP.go, SockAction.isSend]
    | respond r => simp [send_data_to_server, try_send, List.countP,
        List.countP.go, SockAction.isSend]

/-- C7: along any sequence of raw callbacks on a pin set up with initial
level `init_level`, processing never raises and the recorded level is always
the level of the most recent accepted transition, or the initial capture if
none was accepted — a suppressed bounce or same-level callback never sets
it. -/
theorem level_reflects_last_accepted (debounce_time t0 : ℚ) (pin : String)
    (init_level : Bool) (arrivals : List (ℚ × Bool)) :
    ∃ st2 evs,
      processSeq debounce_time (setup_pin emptyState pin init_level t0) pin
        arrivals = some (st2, evs)
      ∧ st2.pin_states pin =
          some ((evs.map TransitionEvent.new_level).getLastD init_level) := by
  obtain ⟨st2, evs, hseq, hlvl, _⟩ :=
    processSeq_level_tracks_accepted debounce_time pin arrivals
      (setup_pin emptyState pin init_level t0) init_level t0
      (updateFn_self _ _ _) (updateFn_self _ _ _)
  exact ⟨st2, evs, hseq, hlvl⟩

/-- C8: the documented scenario, with the absolute time of the `t = 0 ms`
raw change taken as 1000.5 s and initial capture at 1000 s: pin `P1` starts
`LOW`; the change to `HIGH` at 1000.5 s is accepted (dwell 500 ms); the
change to `LOW` 30 ms later is suppressed by the software debounce
(30 < 100), and the recorded level of `P1` is still `HIGH`. -/
theorem scenario_bounce_suppressed :
    (processSeq 100 (setup_pin emptyState "P1" false 1000) "P1"
        [(2001 / 2, true), (100053 / 100, false)]).map
      (fun r => (r.2.map (fun e => (e.new_level, e.time_diff_ms)),
        r.1.pin_states "P1")) =
    some ([(true, 500)], some true) := by
  norm_num [processSeq, pin_change_callback, setup_pin, emptyState, updateFn]

/-- C9: the startup probe is a single connection attempt that writes no
payload; on success it is connect followed immediately by close; whatever
its outcome, the monitoring loop is entered. -/
theorem startup_probe_once_and_harmless (probe : Except NetError Unit)
    (e : NetError) :
    ((run probe).probe_actions.countP SockAction.isConnect = 1)
    ∧ ((run probe).probe_actions.countP SockAction.isSend = 0)
    ∧ ((run probe).entered_loop = true)
    ∧ ((run (Except.ok ())).probe_actions = [.connect, .close])
    ∧ ((run (Except.error e)).probe_actions = [.connect])
    ∧ ((run (Except.error e)).entered_loop = true) := by
  refine ⟨?_, ?_, rfl, rfl, rfl, rfl⟩ <;> cases probe <;> rfl

/-- C10: a raw callback on a channel with no recorded pin state produces no
event and does not raise: the old level defaults to the freshly read one, so
the equality check discards the change before the unguarded
`pin_timestamps[channel]` lookup is reached. -/
theorem uninitialized_channel_is_safe (debounce_time current_time : ℚ)
    (st : MonitorState) (channel : String) (new_state : Bool)
    (h : st.pin_states channel = none) :
    ∃ st2, pin_change_callback debounce_time st channel current_time
      new_state = some (st2, none) := by
  by_cases hd : (current_time - (st.last_interrupt_time channel).getD 0) *
      1000 < debounce_time
  · exact ⟨st, pin_change_callback_debounced debounce_time st channel
      current_time new_state hd⟩
  · exact ⟨_, pin_change_callback_spurious debounce_time st channel
      current_time new_state hd (by rw [h]; rfl)⟩

theorem uninitialized_channel_is_safe_witness :
    (pin_change_callback 100 emptyState "P9" 5 true).map (fun r => r.2) =
      some none := by
  obtain ⟨st2, h2⟩ := uninitialized_channel_is_safe 100 5 emptyState "P9" true
    rfl
  rw [h2]
  rfl
